import Mathlib

/-!
Shallow embedding of the chaos-injection core of `rpa-chaos-testing-tool`
(`src/chaos/experiments.py`, `src/chaos/controller.py`,
`src/chaos/page_proxy.py`, `src/chaos/locator_proxy.py`).

Modelling conventions:
* The Python `random.Random` is modelled as an abstract deterministic stream
  `stream : Nat → ℚ` together with a position counter; each call of
  `random()`, `uniform(a, b)` or `randint(a, b)` consumes exactly one draw.
  `random()` yields the raw draw (a value in `[0, 1)` for real streams),
  `uniform a b q = a + (b - a) * q` mirrors the CPython implementation, and
  `randint` maps a draw into `[lo, hi]` by scaling.  Floats are modelled as
  exact rationals; `round(d, 3)` is modelled as round-half-to-even at three
  decimals.
* External calls (`page.evaluate`, CDP `send`) are recorded in a trace and
  their success/failure is decided by an environment `Env` of boolean
  failure schedules, one per call site, indexed by a per-site counter.
  In the source, failures of `page.evaluate`, of the restoring
  `Network.emulateNetworkConditions` send and of the throttling send are
  swallowed by `except Exception: pass` with no further effect, so the
  corresponding schedules are consulted only vacuously; the offline-applying
  send sits in a `try/finally` with no `except`, so its failure escapes
  `before_action` after the `finally` block has attempted the restore.
* `time.sleep` has no observable effect on the context and is not modelled.
* Exceptions escaping a hook are modelled by a boolean `raised` component.
-/

namespace RpaChaos

/-- A value stored in the detail mapping of a `ChaosEvent`
(string, integer, or rational — standing for Python str/int/float). -/
inductive DVal
| s (v : String)
| i (v : ℤ)
| q (v : ℚ)
deriving DecidableEq, Repr

/-- Model of `ChaosEvent` from `experiments.py`: a kind plus a detail mapping; the
detail keys are kept in keyword order. -/
structure ChaosEvent where
  kind : String
  detail : List (String × DVal)
deriving DecidableEq, Repr

/-- One external call issued by an experiment: a `page.evaluate` of the
overlay script (with its single duration argument), or one CDP
`Network.emulateNetworkConditions` send with its payload. -/
inductive NetCall
| evaluate (durMs : ℤ)
| emulate (offline : Bool) (latency downBps upBps : ℤ)
deriving DecidableEq, Repr

/-- The state threaded through a run: the `ChaosContext` (rng position and
append-only event list) plus a record of the external calls issued and
per-call-site counters used to index the failure schedules. -/
structure ChaosState where
  pos : Nat
  events : List ChaosEvent
  extTrace : List NetCall
  nEval : Nat
  nApply : Nat
  nRestore : Nat
  nThrottle : Nat
  nAcquire : Nat
deriving DecidableEq, Repr

/-- The environment: for each kind of external call, a schedule saying
whether its n-th occurrence raises.  `evalF`, `restoreF` and `throttleF`
are swallowed at their call sites (`except Exception: pass`); `applyF`
(the offline-applying send) and `acquireF` (CDP session acquisition at
`on_start`) have observable effect. -/
structure Env where
  evalF : Nat → Bool
  applyF : Nat → Bool
  restoreF : Nat → Bool
  throttleF : Nat → Bool
  acquireF : Nat → Bool

/-- Consume one draw from the stream: `ctx.rng.random()`. -/
def draw (stream : Nat → ℚ) (st : ChaosState) : ℚ × ChaosState :=
  (stream st.pos, { st with pos := st.pos + 1 })

/-- Model of `rng.uniform(a, b) = a + (b - a) * random()`. -/
def uniform (a b q : ℚ) : ℚ := a + (b - a) * q

/-- Model of `rng.randint(lo, hi)`: one draw mapped into `[lo, hi]`. -/
def randint (lo hi : ℤ) (q : ℚ) : ℤ := lo + ⌊q * ((hi : ℚ) - (lo : ℚ) + 1)⌋

/-- Round-half-to-even to an integer (the Python `round` tie rule). -/
def roundHalfEven (x : ℚ) : ℤ :=
  let f := ⌊x⌋
  let r := x - (f : ℚ)
  if r < 1 / 2 then f
  else if 1 / 2 < r then f + 1
  else if f % 2 = 0 then f else f + 1

/-- Model of the Python `round(d, 3)`. -/
def round3 (x : ℚ) : ℚ := (roundHalfEven (x * 1000) : ℚ) / 1000

/-- Model of `int((kbps * 1024) / 8)`: kbps → bytes/sec, truncated toward zero. -/
def kbpsToBps (kbps : ℤ) : ℤ := Int.tdiv (kbps * 1024) 8

/-- Model of `ctx.emit(kind, **detail)`: append one event. -/
def emit (st : ChaosState) (kind : String) (detail : List (String × DVal)) :
    ChaosState :=
  { st with events := st.events ++ [⟨kind, detail⟩] }

/-- Model of `page.evaluate(js, dur_ms)` inside `ModalOverlay.before_action`: the
call is issued; a failure is swallowed (`except Exception: pass`) with no
further effect, so the schedule value is discarded. -/
def callEvaluate (env : Env) (durMs : ℤ) (st : ChaosState) : ChaosState :=
  let _fails := env.evalF st.nEval
  { st with extTrace := st.extTrace ++ [.evaluate durMs], nEval := st.nEval + 1 }

/-- The offline-applying `Network.emulateNetworkConditions` send: issued,
and its failure bit is returned because the surrounding `try` has no
`except` — the exception escapes after the `finally` block runs. -/
def callApplyOffline (env : Env) (st : ChaosState) : ChaosState × Bool :=
  ({ st with extTrace := st.extTrace ++ [.emulate true 0 (-1) (-1)],
             nApply := st.nApply + 1 },
   env.applyF st.nApply)

/-- The restoring send in the `finally` block: issued; failure swallowed. -/
def callRestore (env : Env) (st : ChaosState) : ChaosState :=
  let _fails := env.restoreF st.nRestore
  { st with extTrace := st.extTrace ++ [.emulate false 0 (-1) (-1)],
            nRestore := st.nRestore + 1 }

/-- The throttling send: issued; failure swallowed. -/
def callThrottle (env : Env) (latency downBps upBps : ℤ) (st : ChaosState) :
    ChaosState :=
  let _fails := env.throttleF st.nThrottle
  { st with extTrace := st.extTrace ++ [.emulate false latency downBps upBps],
            nThrottle := st.nThrottle + 1 }

/-- The three experiment variants of `experiments.py`, with their
constructor configuration.  `cdp` models `NetworkChaos._cdp`: `false` for
`None` (as set by `__init__`, or after a failed acquisition), `true` for a
live CDP session. -/
inductive Experiment
| randomDelay (min_s max_s p : ℚ)
| modalOverlay (p : ℚ) (min_ms max_ms : ℤ)
| networkChaos (tp op : ℚ)
    (lat_min lat_max down_min down_max up_min up_max off_min off_max : ℤ)
    (cdp : Bool)
deriving DecidableEq, Repr

/-- Model of `Experiment.before_action`, by variant, translated line by line from
`experiments.py`.  Returns the new state and whether the hook raised. -/
def expBefore (env : Env) (stream : Nat → ℚ) (e : Experiment)
    (action : String) (st : ChaosState) : ChaosState × Bool :=
  match e with
  | .randomDelay min_s max_s p =>
    let (q, st1) := draw stream st
    if q ≤ p then
      let (q2, st2) := draw stream st1
      let d := uniform min_s max_s q2
      (emit st2 ("random_delay")
        [(("action"), DVal.s action), (("delay_s"), DVal.q (round3 d))], false)
    else (st1, false)
  | .modalOverlay p min_ms max_ms =>
    if action ∉ [("click" : String), "fill", "type", "press"] then (st, false)
    else
      let (q, st1) := draw stream st
      if p < q then (st1, false)
      else
        let (q2, st2) := draw stream st1
        let durMs := randint min_ms max_ms q2
        let st3 := emit st2 ("modal_overlay")
          [(("action"), DVal.s action), (("duration_ms"), DVal.i durMs)]
        (callEvaluate env durMs st3, false)
  | .networkChaos tp op lat_min lat_max down_min down_max up_min up_max
      off_min off_max cdp =>
    if cdp = false then (st, false)
    else if action ∉ [("goto" : String), "click"] then (st, false)
    else
      let (r, st1) := draw stream st
      if r ≤ op then
        let (q2, st2) := draw stream st1
        let offMs := randint off_min off_max q2
        let st3 := emit st2 ("network_chaos")
          [(("mode"), DVal.s ("offline_burst")), (("duration_ms"), DVal.i offMs),
           (("action"), DVal.s action)]
        let (st4, failed) := callApplyOffline env st3
        let st5 := callRestore env st4
        (st5, failed)
      else if r ≤ op + tp then
        let (q1, st2) := draw stream st1
        let latency := randint lat_min lat_max q1
        let (q2, st3) := draw stream st2
        let down_kbps := randint down_min down_max q2
        let (q3, st4) := draw stream st3
        let up_kbps := randint up_min up_max q3
        let down_bps := kbpsToBps down_kbps
        let up_bps := kbpsToBps up_kbps
        let st5 := emit st4 ("network_chaos")
          [(("mode"), DVal.s ("throttle")), (("latency_ms"), DVal.i latency),
           (("down_kbps"), DVal.i down_kbps), (("up_kbps"), DVal.i up_kbps),
           (("action"), DVal.s action)]
        (callThrottle env latency down_bps up_bps st5, false)
      else (st1, false)

/-- Model of `Experiment.on_start`: only `NetworkChaos` acts — it attempts to
acquire a CDP session (`new_cdp_session` + `Network.enable`, both inside
one `try/except` that sets `_cdp = None` on failure). -/
def expOnStart (env : Env) (e : Experiment) (st : ChaosState) :
    Experiment × ChaosState :=
  match e with
  | .networkChaos tp op a b c d f g h i _ =>
    let ok := !(env.acquireF st.nAcquire)
    (.networkChaos tp op a b c d f g h i ok,
     { st with nAcquire := st.nAcquire + 1 })
  | e => (e, st)

/-- Model of `Experiment.after_action`: the base-class default `pass`; no variant
overrides it. -/
def expAfter (e : Experiment) (action : String) (st : ChaosState) :
    ChaosState :=
  st

/-- Model of `ChaosController.before_action`: invoke each experiment in list order;
a raise aborts the loop and escapes. -/
def controllerBefore (env : Env) (stream : Nat → ℚ) :
    List Experiment → String → ChaosState → ChaosState × Bool
| [], _, st => (st, false)
| e :: es, action, st =>
  let (st1, raised) := expBefore env stream e action st
  if raised then (st1, true)
  else controllerBefore env stream es action st1

/-- Model of `ChaosController.on_start`: invoke `on_start` on each experiment in
list order (experiments mutate themselves, so the list is rebuilt). -/
def controllerOnStart (env : Env) :
    List Experiment → ChaosState → List Experiment × ChaosState
| [], st => ([], st)
| e :: es, st =>
  let (e1, st1) := expOnStart env e st
  let (es1, st2) := controllerOnStart env es st1
  (e1 :: es1, st2)

/-- Model of `ChaosController.after_action`: invoke the (no-op)
`after_action` of each experiment in list order. -/
def controllerAfter :
    List Experiment → String → ChaosState → ChaosState
| [], _, st => st
| e :: es, action, st => controllerAfter es action (expAfter e action st)

/-- One invocation of a controller hook by the harness/proxies. -/
inductive Hook
| start
| before (action : String)
| after (action : String)
deriving DecidableEq, Repr

/-- Process a sequence of hook invocations against the controller.  An
exception escaping `before_action` is caught by the caller (the run goes
on with the same subsequent invocations). -/
def runHooks (env : Env) (stream : Nat → ℚ) :
    List Hook → List Experiment → ChaosState → List Experiment × ChaosState
| [], exps, st => (exps, st)
| .start :: hs, exps, st =>
  let (exps1, st1) := controllerOnStart env exps st
  runHooks env stream hs exps1 st1
| .before a :: hs, exps, st =>
  let (st1, _raised) := controllerBefore env stream exps a st
  runHooks env stream hs exps st1
| .after a :: hs, exps, st =>
  runHooks env stream hs exps (controllerAfter exps a st)

/-- The fresh `ChaosContext` of a new `ChaosController`. -/
def initState : ChaosState := ⟨0, [], [], 0, 0, 0, 0, 0⟩

/-- The event log of a full run from a fresh controller. -/
def runLog (env : Env) (stream : Nat → ℚ) (hooks : List Hook)
    (exps : List Experiment) : List ChaosEvent :=
  (runHooks env stream hooks exps initState).2.events

/-- An environment in which no external call ever fails. -/
def envAllOk : Env := ⟨fun _ => false, fun _ => false, fun _ => false,
  fun _ => false, fun _ => false⟩

/-- An environment in which every offline-applying send fails and
everything else succeeds. -/
def envApplyFails : Env := ⟨fun _ => false, fun _ => true, fun _ => false,
  fun _ => false, fun _ => false⟩

/-- An environment in which every restoring send fails and everything else
succeeds. -/
def envRestoreFails : Env := ⟨fun _ => false, fun _ => false, fun _ => true,
  fun _ => false, fun _ => false⟩

/-- An environment in which CDP session acquisition fails and everything
else succeeds. -/
def envAcquireFails : Env := ⟨fun _ => false, fun _ => false, fun _ => false,
  fun _ => false, fun _ => true⟩

/-- Demo `NetworkChaos(throttle_probability=0, offline_probability=1)`,
freshly constructed (`_cdp = None`), with degenerate ranges. -/
def ncDemo : Experiment := .networkChaos 0 1 0 0 0 0 0 0 0 0 false

/-- Demo `RandomDelay(0, 0, probability=1.0)`. -/
def rdDemo : Experiment := .randomDelay 0 0 1

/-!
The interception proxies (`page_proxy.py`, `locator_proxy.py`).  They are
generic in the real handle types (`P` real page, `L` real locator), the
argument payload type `A` (standing for `*args, **kwargs`), the hook state
`σ`, and the outcome of a delegated real operation (`Except E R`: raised
exception or returned value).  Each intercepted method calls the before
hook, delegates, and calls the after hook in a `try/finally`, so the after
hook runs on both exit paths and the delegated outcome is passed through
unchanged.
-/

/-- Model of `LocatorProxy`: a real locator plus the two hook callables. -/
structure LocatorProxy (L A σ : Type) where
  loc : L
  before : String → A → σ → σ
  after : String → A → σ → σ

/-- Model of `LocatorProxy.click`. -/
def LocatorProxy.click {L A σ E R : Type} (lp : LocatorProxy L A σ)
    (args : A) (real : L → A → Except E R) (s : σ) : σ × Except E R :=
  let s1 := lp.before ("click") args s
  let out := real lp.loc args
  let s2 := lp.after ("click") args s1
  (s2, out)

/-- Model of `LocatorProxy.fill`. -/
def LocatorProxy.fill {L A σ E R : Type} (lp : LocatorProxy L A σ)
    (args : A) (real : L → A → Except E R) (s : σ) : σ × Except E R :=
  let s1 := lp.before ("fill") args s
  let out := real lp.loc args
  let s2 := lp.after ("fill") args s1
  (s2, out)

/-- Model of `LocatorProxy.type`. -/
def LocatorProxy.type {L A σ E R : Type} (lp : LocatorProxy L A σ)
    (args : A) (real : L → A → Except E R) (s : σ) : σ × Except E R :=
  let s1 := lp.before ("type") args s
  let out := real lp.loc args
  let s2 := lp.after ("type") args s1
  (s2, out)

/-- Model of `LocatorProxy.press`. -/
def LocatorProxy.press {L A σ E R : Type} (lp : LocatorProxy L A σ)
    (args : A) (real : L → A → Except E R) (s : σ) : σ × Except E R :=
  let s1 := lp.before ("press") args s
  let out := real lp.loc args
  let s2 := lp.after ("press") args s1
  (s2, out)

/-- Model of `PageProxy`: a real page plus the two hook callables. -/
structure PageProxy (P A σ : Type) where
  page : P
  before : String → A → σ → σ
  after : String → A → σ → σ

/-- Model of `PageProxy.goto`. -/
def PageProxy.goto {P A σ E R : Type} (pp : PageProxy P A σ)
    (args : A) (real : P → A → Except E R) (s : σ) : σ × Except E R :=
  let s1 := pp.before ("goto") args s
  let out := real pp.page args
  let s2 := pp.after ("goto") args s1
  (s2, out)

/-- Model of `PageProxy.click`. -/
def PageProxy.click {P A σ E R : Type} (pp : PageProxy P A σ)
    (args : A) (real : P → A → Except E R) (s : σ) : σ × Except E R :=
  let s1 := pp.before ("click") args s
  let out := real pp.page args
  let s2 := pp.after ("click") args s1
  (s2, out)

/-- Model of `PageProxy.fill`. -/
def PageProxy.fill {P A σ E R : Type} (pp : PageProxy P A σ)
    (args : A) (real : P → A → Except E R) (s : σ) : σ × Except E R :=
  let s1 := pp.before ("fill") args s
  let out := real pp.page args
  let s2 := pp.after ("fill") args s1
  (s2, out)

/-- Model of `PageProxy.type`. -/
def PageProxy.type {P A σ E R : Type} (pp : PageProxy P A σ)
    (args : A) (real : P → A → Except E R) (s : σ) : σ × Except E R :=
  let s1 := pp.before ("type") args s
  let out := real pp.page args
  let s2 := pp.after ("type") args s1
  (s2, out)

/-- Model of `PageProxy.press`. -/
def PageProxy.press {P A σ E R : Type} (pp : PageProxy P A σ)
    (args : A) (real : P → A → Except E R) (s : σ) : σ × Except E R :=
  let s1 := pp.before ("press") args s
  let out := real pp.page args
  let s2 := pp.after ("press") args s1
  (s2, out)

/-- Model of `PageProxy.locator`: wrap the real returned locator in a
`LocatorProxy` reusing the same two hooks; no hook is invoked. -/
def PageProxy.locator {P L A σ : Type} (pp : PageProxy P A σ)
    (args : A) (real : P → A → L) : LocatorProxy L A σ :=
  ⟨real pp.page args, pp.before, pp.after⟩

/-- Model of `PageProxy.get_by_role`. -/
def PageProxy.get_by_role {P L A σ : Type} (pp : PageProxy P A σ)
    (args : A) (real : P → A → L) : LocatorProxy L A σ :=
  ⟨real pp.page args, pp.before, pp.after⟩

/-- Model of `PageProxy.get_by_text`. -/
def PageProxy.get_by_text {P L A σ : Type} (pp : PageProxy P A σ)
    (args : A) (real : P → A → L) : LocatorProxy L A σ :=
  ⟨real pp.page args, pp.before, pp.after⟩

/-- Model of `PageProxy.get_by_label`. -/
def PageProxy.get_by_label {P L A σ : Type} (pp : PageProxy P A σ)
    (args : A) (real : P → A → L) : LocatorProxy L A σ :=
  ⟨real pp.page args, pp.before, pp.after⟩

/-- A page proxy whose hooks record each invocation as
`(which-hook, action)` in a list, for observing hook traffic. -/
def recHooksPage {P A : Type} (p : P) :
    PageProxy P A (List (String × String)) :=
  ⟨p, fun name _ log => log ++ [(("before"), name)],
      fun name _ log => log ++ [(("after"), name)]⟩

/-! Helper lemmas: the failure schedules of the swallowed call sites
(`evalF`, `restoreF`, `throttleF`) never influence any outcome, and the
whole hook pipeline is a congruence in the two schedules that do
(`applyF`, `acquireF`). -/

theorem callEvaluate_env_irrel (env1 env2 : Env) (d : ℤ) (st : ChaosState) :
    callEvaluate env1 d st = callEvaluate env2 d st := rfl

theorem callRestore_env_irrel (env1 env2 : Env) (st : ChaosState) :
    callRestore env1 st = callRestore env2 st := rfl

theorem callThrottle_env_irrel (env1 env2 : Env) (l d u : ℤ)
    (st : ChaosState) :
    callThrottle env1 l d u st = callThrottle env2 l d u st := rfl

theorem callApplyOffline_env_congr (env1 env2 : Env) (st : ChaosState)
    (h : env1.applyF = env2.applyF) :
    callApplyOffline env1 st = callApplyOffline env2 st := by
  simp [callApplyOffline, h]

theorem expBefore_env_congr (env1 env2 : Env) (stream : Nat → ℚ)
    (e : Experiment) (action : String) (st : ChaosState)
    (h : env1.applyF = env2.applyF) :
    expBefore env1 stream e action st = expBefore env2 stream e action st := by
  cases e with
  | randomDelay mn mx p => rfl
  | modalOverlay p mn mx => rfl
  | networkChaos tp op lm lM dm dM um uM om oM cdp =>
    simp only [expBefore, callApplyOffline_env_congr env1 env2 _ h,
      callRestore_env_irrel env1 env2, callThrottle_env_irrel env1 env2]

theorem expOnStart_env_congr (env1 env2 : Env) (e : Experiment)
    (st : ChaosState) (h : env1.acquireF = env2.acquireF) :
    expOnStart env1 e st = expOnStart env2 e st := by
  cases e <;> simp [expOnStart, h]

theorem controllerBefore_env_congr (env1 env2 : Env) (stream : Nat → ℚ)
    (exps : List Experiment) (action : String) (st : ChaosState)
    (h : env1.applyF = env2.applyF) :
    controllerBefore env1 stream exps action st
      = controllerBefore env2 stream exps action st := by
  induction exps generalizing st with
  | nil => rfl
  | cons e es ih =>
    simp only [controllerBefore, expBefore_env_congr env1 env2 stream e action st h]
    rcases hx : expBefore env2 stream e action st with ⟨st1, raised⟩
    cases raised <;> simp [ih]

theorem controllerOnStart_env_congr (env1 env2 : Env)
    (exps : List Experiment) (st : ChaosState)
    (h : env1.acquireF = env2.acquireF) :
    controllerOnStart env1 exps st = controllerOnStart env2 exps st := by
  induction exps generalizing st with
  | nil => rfl
  | cons e es ih =>
    simp only [controllerOnStart, expOnStart_env_congr env1 env2 e st h]
    rcases hx : expOnStart env2 e st with ⟨e1, st1⟩
    simp [ih]

theorem runHooks_env_congr (env1 env2 : Env) (stream : Nat → ℚ)
    (hooks : List Hook) (exps : List Experiment) (st : ChaosState)
    (happly : env1.applyF = env2.applyF)
    (hacq : env1.acquireF = env2.acquireF) :
    runHooks env1 stream hooks exps st = runHooks env2 stream hooks exps st := by
  induction hooks generalizing exps st with
  | nil => rfl
  | cons h hs ih =>
    cases h with
    | start =>
      simp only [runHooks, controllerOnStart_env_congr env1 env2 exps st hacq]
      rcases hx : controllerOnStart env2 exps st with ⟨exps1, st1⟩
      simp [ih]
    | before a =>
      simp only [runHooks, controllerBefore_env_congr env1 env2 stream exps a st happly]
      rcases hx : controllerBefore env2 stream exps a st with ⟨st1, raised⟩
      simp [ih]
    | after a =>
      simp only [runHooks]
      exact ih exps (controllerAfter exps a st)

/-- C1: Determinism — for a fixed experiment list, stream of seeded draws,
and finite sequence of hook invocations, two executions of the
`ChaosController` produce identical ordered event logs (and identical full
states, sampled values included).  The two executions may even disagree on
the outcomes of all swallowed external calls (`page.evaluate`, the
restoring send, the throttling send); only the schedule of the offline-applying send and
failure schedule and the CDP acquisition outcome must agree, and they do
agree whenever the two executions run against identically behaving
environments. -/
theorem c1_determinism (env1 env2 : Env) (stream : Nat → ℚ)
    (hooks : List Hook) (exps : List Experiment)
    (happly : env1.applyF = env2.applyF)
    (hacq : env1.acquireF = env2.acquireF) :
    runLog env1 stream hooks exps = runLog env2 stream hooks exps := by
  unfold runLog
  rw [runHooks_env_congr env1 env2 stream hooks exps initState happly hacq]

/-- C1 witness: a concrete run (`NetworkChaos` with offline probability 1
followed by `RandomDelay`, one `goto`) yields the same log whether or not
the restoring sends fail. -/
theorem c1_determinism_witness :
    envRestoreFails.applyF = envAllOk.applyF
    ∧ envRestoreFails.acquireF = envAllOk.acquireF
    ∧ runLog envRestoreFails (fun _ => 0) [Hook.start, Hook.before ("goto")]
        [ncDemo, rdDemo]
      = runLog envAllOk (fun _ => 0) [Hook.start, Hook.before ("goto")]
        [ncDemo, rdDemo] :=
  ⟨rfl, rfl,
   c1_determinism envRestoreFails envAllOk (fun _ => 0)
     [Hook.start, Hook.before ("goto")] [ncDemo, rdDemo] rfl rfl⟩

/-- C2: After-hook invariant — every intercepted operation (`goto`,
`click`, `fill`, `type`, `press` on the page proxy; `click`, `fill`,
`type`, `press` on the locator proxy) ends in the state produced by
running the after hook on the state left by the before hook (so the after
hook fires on every exit path), and passes the outcome of the delegated call
through unchanged: an `Except.error e` raised by the real operation is
re-raised verbatim, an `Except.ok v` is returned verbatim. -/
theorem c2_after_hook_invariant {P L A σ E R : Type}
    (pp : PageProxy P A σ) (lp : LocatorProxy L A σ) (args : A) (s : σ)
    (rGoto rClickP rFillP rTypeP rPressP : P → A → Except E R)
    (rClickL rFillL rTypeL rPressL : L → A → Except E R) :
    pp.goto args rGoto s
      = (pp.after ("goto") args (pp.before ("goto") args s), rGoto pp.page args)
    ∧ pp.click args rClickP s
      = (pp.after ("click") args (pp.before ("click") args s), rClickP pp.page args)
    ∧ pp.fill args rFillP s
      = (pp.after ("fill") args (pp.before ("fill") args s), rFillP pp.page args)
    ∧ PageProxy.type pp args rTypeP s
      = (pp.after ("type") args (pp.before ("type") args s), rTypeP pp.page args)
    ∧ pp.press args rPressP s
      = (pp.after ("press") args (pp.before ("press") args s), rPressP pp.page args)
    ∧ lp.click args rClickL s
      = (lp.after ("click") args (lp.before ("click") args s), rClickL lp.loc args)
    ∧ lp.fill args rFillL s
      = (lp.after ("fill") args (lp.before ("fill") args s), rFillL lp.loc args)
    ∧ LocatorProxy.type lp args rTypeL s
      = (lp.after ("type") args (lp.before ("type") args s), rTypeL lp.loc args)
    ∧ lp.press args rPressL s
      = (lp.after ("press") args (lp.before ("press") args s), rPressL lp.loc args) :=
  ⟨rfl, rfl, rfl, rfl, rfl, rfl, rfl, rfl, rfl⟩

/-- C3: Chaining — each locator-returning accessor (`locator`,
`get_by_role`, `get_by_text`, `get_by_label`) returns a new locator proxy
wrapping the real returned locator and reusing the same two hook
callables; and a chained `get_by_role(...).click()` under
invocation-recording hooks records exactly one before-hook and one
after-hook invocation, both attributed to `click` (so the accessor itself
invokes neither hook), while returning the outcome of the real click
unchanged. -/
theorem c3_locator_chaining {P L A σ E R : Type}
    (pp : PageProxy P A σ) (qargs : A)
    (realLoc realRole realText realLabel : P → A → L)
    (p : P) (gargs cargs : A) (realAcc : P → A → L)
    (realClick : L → A → Except E R) :
    pp.locator qargs realLoc
      = ⟨realLoc pp.page qargs, pp.before, pp.after⟩
    ∧ pp.get_by_role qargs realRole
      = ⟨realRole pp.page qargs, pp.before, pp.after⟩
    ∧ pp.get_by_text qargs realText
      = ⟨realText pp.page qargs, pp.before, pp.after⟩
    ∧ pp.get_by_label qargs realLabel
      = ⟨realLabel pp.page qargs, pp.before, pp.after⟩
    ∧ ((recHooksPage p).get_by_role gargs realAcc).click cargs realClick []
      = ([(("before"), ("click")), (("after"), ("click"))],
         realClick (realAcc p gargs) cargs) :=
  ⟨rfl, rfl, rfl, rfl, rfl⟩

/-- C4: NetworkChaos priority and mutual exclusion — on a qualifying
action (`goto` or `click`) handled by a non-inert `NetworkChaos`, one
probability value `r` (the draw at the current stream position) decides
everything: if `r ≤ offline_probability` exactly one `offline_burst`
event is appended (never a throttle event, regardless of
`throttle_probability`); else if `r ≤ offline_probability +
throttle_probability` exactly one `throttle` event is appended; otherwise
no event is appended. -/
theorem c4_network_priority (env : Env) (stream : Nat → ℚ) (tp op : ℚ)
    (lm lM dm dM um uM om oM : ℤ) (action : String) (st : ChaosState)
    (ha : action = "goto" ∨ action = "click") :
    (expBefore env stream
        (.networkChaos tp op lm lM dm dM um uM om oM true) action st).1.events
      = st.events ++
        (if stream st.pos ≤ op then
          [⟨"network_chaos",
            [(("mode"), DVal.s ("offline_burst")),
             (("duration_ms"), DVal.i (randint om oM (stream (st.pos + 1)))),
             (("action"), DVal.s action)]⟩]
        else if stream st.pos ≤ op + tp then
          [⟨"network_chaos",
            [(("mode"), DVal.s ("throttle")),
             (("latency_ms"), DVal.i (randint lm lM (stream (st.pos + 1)))),
             (("down_kbps"), DVal.i (randint dm dM (stream (st.pos + 2)))),
             (("up_kbps"), DVal.i (randint um uM (stream (st.pos + 3)))),
             (("action"), DVal.s action)]⟩]
        else []) := by
  rcases ha with h | h <;> subst h <;>
    simp only [expBefore, draw, emit, callApplyOffline, callRestore,
      callThrottle] <;>
    split_ifs <;>
    simp_all

/-- C4 witness: with every draw 0 and offline probability 1, a `goto`
produces exactly the one `offline_burst` event. -/
theorem c4_network_priority_witness :
    (expBefore envAllOk (fun _ => 0)
        (.networkChaos 1 1 300 1200 200 1500 100 800 800 2500 true)
        ("goto") initState).1.events
      = [⟨"network_chaos",
          [(("mode"), DVal.s ("offline_burst")), (("duration_ms"), DVal.i 800),
           (("action"), DVal.s ("goto"))]⟩] := by
  have h := c4_network_priority envAllOk (fun _ => 0) 1 1 300 1200
    200 1500 100 800 800 2500 ("goto") initState (Or.inl rfl)
  norm_num [initState, randint] at h
  exact h

/-- C5 counterexample: the claim that no exception raised by a network-control
call escapes the `before_action` hook is false — with offline
probability 1 and a failing offline-applying send, `before_action`
raises (`.2 = true`). -/
theorem c5_counterexample_offline_apply_raises :
    (expBefore envApplyFails (fun _ => 0)
        (.networkChaos 0 1 0 0 0 0 0 0 0 0 true) ("goto") initState).2
      = true := by
  decide

/-- C5 amended: errors of the restoring send and of the throttling send
are caught and ignored, but an error of the offline-applying send
propagates out of `before_action` (after the `finally` block has
attempted the restore): the hook raises exactly when the experiment is
non-inert, the action qualifies, the draw selects the offline branch,
and the offline-applying send fails. -/
theorem c5_best_effort_amended (env : Env) (stream : Nat → ℚ) (tp op : ℚ)
    (lm lM dm dM um uM om oM : ℤ) (cdp : Bool) (action : String)
    (st : ChaosState) :
    (expBefore env stream (.networkChaos tp op lm lM dm dM um uM om oM cdp)
        action st).2 = true
      ↔ cdp = true ∧ (action = "goto" ∨ action = "click")
        ∧ stream st.pos ≤ op ∧ env.applyF st.nApply = true := by
  cases cdp with
  | false => simp [expBefore]
  | true =>
    by_cases hmem : action ∈ [("goto" : String), "click"]
    · have hor : action = "goto" ∨ action = "click" := by simpa using hmem
      simp only [expBefore, draw, emit, callApplyOffline, callRestore,
        callThrottle]
      split_ifs <;> simp_all
    · have hor : ¬ (action = "goto" ∨ action = "click") := by simpa using hmem
      simp [expBefore, hmem, hor]

/-- C6 counterexample: the claim that the only visible failure channel is the
event log being shorter than expected (never a surfaced error) is false —
a failing offline-condition application surfaces an error out of
`ChaosController.before_action`. -/
theorem c6_counterexample_error_surfaces :
    (controllerBefore envApplyFails (fun _ => 0)
        [Experiment.networkChaos 0 1 300 1200 200 1500 100 800 800 2500 true]
        ("goto") initState).2 = true := by
  decide

/-- C6 amended: failures of the swallowed injection sub-operations
(script execution, condition restore, throttle application) are silently
recovered with no observable effect at all — the hook result is
independent of their failure schedules and no error surfaces — provided
no offline-condition application fails; a failing offline-condition
application, by contrast, surfaces an error (see the counterexample). -/
theorem c6_injection_failures_amended (env1 env2 : Env) (stream : Nat → ℚ)
    (e : Experiment) (action : String) (st : ChaosState)
    (happly : env1.applyF = env2.applyF)
    (hok : ∀ n, env1.applyF n = false) :
    expBefore env1 stream e action st = expBefore env2 stream e action st
    ∧ (expBefore env1 stream e action st).2 = false := by
  refine ⟨expBefore_env_congr env1 env2 stream e action st happly, ?_⟩
  cases e with
  | randomDelay mn mx p =>
    simp only [expBefore, draw, emit]
    split_ifs <;> rfl
  | modalOverlay p mn mx =>
    simp only [expBefore, draw, emit, callEvaluate]
    split_ifs <;> rfl
  | networkChaos tp op lm lM dm dM um uM om oM cdp =>
    simp only [expBefore, draw, emit, callApplyOffline, callRestore,
      callThrottle]
    split_ifs <;> simp [hok]

/-- C6 witness: with failing restore sends (and offline applications
succeeding), a non-inert `NetworkChaos` behaves exactly as under a
fully-succeeding environment and raises nothing. -/
theorem c6_injection_failures_amended_witness :
    expBefore envRestoreFails (fun _ => 0)
        (.networkChaos 0 1 0 0 0 0 0 0 0 0 true) ("goto") initState
      = expBefore envAllOk (fun _ => 0)
        (.networkChaos 0 1 0 0 0 0 0 0 0 0 true) ("goto") initState
    ∧ (expBefore envRestoreFails (fun _ => 0)
        (.networkChaos 0 1 0 0 0 0 0 0 0 0 true) ("goto") initState).2
      = false :=
  c6_injection_failures_amended envRestoreFails envAllOk (fun _ => 0)
    (.networkChaos 0 1 0 0 0 0 0 0 0 0 true) ("goto") initState rfl
    (fun _ => rfl)

/-- C7: Capability-conditional inertness — if CDP acquisition fails at
`on_start`, the `_cdp` field of the experiment is `None` (modelled `cdp = false`),
and every `before_action` call on an inert `NetworkChaos` is a complete
no-op for every action kind and state: no events, no RNG draws, no
network-control calls, no raise (the state is returned unchanged). -/
theorem c7_inert_no_op (env : Env) (stream : Nat → ℚ) (tp op : ℚ)
    (lm lM dm dM um uM om oM : ℤ) (b : Bool) (st : ChaosState)
    (action : String) (st2 : ChaosState)
    (hfail : env.acquireF st.nAcquire = true) :
    expOnStart env (.networkChaos tp op lm lM dm dM um uM om oM b) st
      = (.networkChaos tp op lm lM dm dM um uM om oM false,
         { st with nAcquire := st.nAcquire + 1 })
    ∧ expBefore env stream (.networkChaos tp op lm lM dm dM um uM om oM false)
        action st2 = (st2, false) := by
  constructor
  · simp [expOnStart, hfail]
  · simp [expBefore]

/-- C7 witness: a concrete failed acquisition makes the experiment inert,
and `before_action` of the inert experiment on a `goto` is the identity. -/
theorem c7_inert_no_op_witness :
    expOnStart envAcquireFails
        (.networkChaos (1/4) (1/10) 300 1200 200 1500 100 800 800 2500 true)
        initState
      = (.networkChaos (1/4) (1/10) 300 1200 200 1500 100 800 800 2500 false,
         { initState with nAcquire := initState.nAcquire + 1 })
    ∧ expBefore envAcquireFails (fun _ => 0)
        (.networkChaos (1/4) (1/10) 300 1200 200 1500 100 800 800 2500 false)
        ("goto") initState
      = (initState, false) :=
  c7_inert_no_op envAcquireFails (fun _ => 0) (1/4) (1/10) 300 1200 200 1500
    100 800 800 2500 true initState ("goto") initState rfl

/-- C8: ModalOverlay scoping — on any action kind outside
`{click, fill, type, press}` (in particular `goto`), `before_action` is a
no-op; with probability 1 and a valid draw (`< 1`), each action in the set
appends exactly one `modal_overlay` event carrying the action kind and
the sampled duration. -/
theorem c8_modal_scoping (env : Env) (stream : Nat → ℚ) (p : ℚ)
    (mn mx : ℤ) (action : String) (st : ChaosState) :
    (action ∉ [("click" : String), "fill", "type", "press"] →
       expBefore env stream (.modalOverlay p mn mx) action st = (st, false))
    ∧ (p = 1 → stream st.pos < 1 →
       action ∈ [("click" : String), "fill", "type", "press"] →
       (expBefore env stream (.modalOverlay p mn mx) action st).1.events
         = st.events ++ [⟨"modal_overlay",
             [(("action"), DVal.s action),
              (("duration_ms"), DVal.i (randint mn mx (stream (st.pos + 1))))]⟩]) := by
  constructor
  · intro hmem
    simp [expBefore, hmem]
  · intro hp hq hmem
    subst hp
    have hnot : ¬ (1 : ℚ) < stream st.pos := not_lt.mpr (le_of_lt hq)
    simp [expBefore, hmem, hnot, draw, emit, callEvaluate]

/-- C8 witness: with probability 1 and every draw 0, `goto` emits nothing
while `fill` emits exactly one `modal_overlay` event with duration 800. -/
theorem c8_modal_scoping_witness :
    expBefore envAllOk (fun _ => 0) (.modalOverlay 1 800 2500)
        ("goto") initState
      = (initState, false)
    ∧ (expBefore envAllOk (fun _ => 0) (.modalOverlay 1 800 2500)
        ("fill") initState).1.events
      = [⟨"modal_overlay",
          [(("action"), DVal.s ("fill")), (("duration_ms"), DVal.i 800)]⟩] := by
  constructor
  · exact (c8_modal_scoping envAllOk (fun _ => 0) 1 800 2500 ("goto")
      initState).1 (by decide)
  · have h := (c8_modal_scoping envAllOk (fun _ => 0) 1 800 2500 ("fill")
      initState).2 rfl (by norm_num) (by decide)
    norm_num [initState, randint] at h
    exact h

/-- C9: Unit conversion — in the throttle branch, the issued
network-condition call carries `kbpsToBps` of each sampled kbps value,
where `kbpsToBps kbps = int((kbps * 1024) / 8)` (truncating division);
and 800 kbps converts to exactly 102400 bytes/sec. -/
theorem c9_unit_conversion (env : Env) (stream : Nat → ℚ) (tp op : ℚ)
    (lm lM dm dM um uM om oM : ℤ) (action : String) (st : ChaosState)
    (ha : action = "goto" ∨ action = "click")
    (h1 : ¬ stream st.pos ≤ op) (h2 : stream st.pos ≤ op + tp) :
    (expBefore env stream
        (.networkChaos tp op lm lM dm dM um uM om oM true) action st).1.extTrace
      = st.extTrace ++
        [NetCall.emulate false (randint lm lM (stream (st.pos + 1)))
          (kbpsToBps (randint dm dM (stream (st.pos + 2))))
          (kbpsToBps (randint um uM (stream (st.pos + 3))))]
    ∧ kbpsToBps 800 = 102400 := by
  constructor
  · rcases ha with h | h <;> subst h <;>
      simp [expBefore, draw, emit, callThrottle, h1, h2]
  · decide

/-- C9 witness: a concrete throttle draw issues the condition
`latency 300, download 25600 B/s (200 kbps), upload 12800 B/s (100 kbps)`,
and 800 kbps is 102400 bytes/sec. -/
theorem c9_unit_conversion_witness :
    (expBefore envAllOk (fun n => if n = 0 then 1 else 0)
        (.networkChaos 1 0 300 1200 200 1500 100 800 800 2500 true)
        ("goto") initState).1.extTrace
      = [NetCall.emulate false 300 25600 12800]
    ∧ kbpsToBps 800 = 102400 := by
  have h := c9_unit_conversion envAllOk (fun n => if n = 0 then 1 else 0)
    1 0 300 1200 200 1500 100 800 800 2500 ("goto") initState (Or.inl rfl)
    (by norm_num [initState]) (by norm_num [initState])
  norm_num [initState, randint, kbpsToBps] at h
  exact h

/-- C10: RNG draw-consumption discipline — `RandomDelay.before_action`
advances the shared stream position by 2 when the probability test
passes and by 1 otherwise (always at least 1), while
`ModalOverlay.before_action` on a non-qualifying kind and a non-inert
`NetworkChaos.before_action` on a non-qualifying kind leave the state
(position included) completely unchanged; hence the position after an
action depends on the kind of the action, as the final concrete pair of
single-action runs differing only in kind shows. -/
theorem c10_draw_consumption (env : Env) (stream : Nat → ℚ)
    (mn mx p mp : ℚ) (imn imx : ℤ) (tp op : ℚ) (lm lM dm dM um uM om oM : ℤ)
    (a1 a2 a3 : String) (st1 st2 st3 : ChaosState)
    (h2 : a2 ∉ [("click" : String), "fill", "type", "press"])
    (h3 : a3 ∉ [("goto" : String), "click"]) :
    (expBefore env stream (.randomDelay mn mx p) a1 st1).1.pos
      = st1.pos + (if stream st1.pos ≤ p then 2 else 1)
    ∧ (expBefore env stream (.modalOverlay mp imn imx) a2 st2).1 = st2
    ∧ (expBefore env stream
        (.networkChaos tp op lm lM dm dM um uM om oM true) a3 st3).1 = st3
    ∧ (controllerBefore envAllOk (fun _ => 0)
        [Experiment.modalOverlay 1 0 0] ("goto") initState).1.pos
      ≠ (controllerBefore envAllOk (fun _ => 0)
        [Experiment.modalOverlay 1 0 0] ("fill") initState).1.pos := by
  refine ⟨?_, ?_, ?_, by decide⟩
  · by_cases h : stream st1.pos ≤ p <;>
      simp [expBefore, draw, emit, uniform, h]
  · simp [expBefore, h2]
  · simp [expBefore, h3]

/-- C10 witness: with every draw 0, `RandomDelay(p=1)` advances the
position by two; `ModalOverlay` on `goto` and a non-inert `NetworkChaos`
on `fill` change nothing; and one `modal_overlay`-only controller call
ends at different positions for `goto` and `fill`. -/
theorem c10_draw_consumption_witness :
    (expBefore envAllOk (fun _ => 0) (.randomDelay 0 1 1)
        ("goto") initState).1.pos = 2
    ∧ (expBefore envAllOk (fun _ => 0) (.modalOverlay 1 800 2500)
        ("goto") initState).1 = initState
    ∧ (expBefore envAllOk (fun _ => 0)
        (.networkChaos (1/4) (1/10) 300 1200 200 1500 100 800 800 2500 true)
        ("fill") initState).1 = initState
    ∧ (controllerBefore envAllOk (fun _ => 0)
        [Experiment.modalOverlay 1 0 0] ("goto") initState).1.pos
      ≠ (controllerBefore envAllOk (fun _ => 0)
        [Experiment.modalOverlay 1 0 0] ("fill") initState).1.pos := by
  have h := c10_draw_consumption envAllOk (fun _ => 0) 0 1 1 1 800 2500
    (1/4) (1/10) 300 1200 200 1500 100 800 800 2500 ("goto") ("goto")
    ("fill") initState initState initState (by decide) (by decide)
  norm_num [initState] at h
  exact h

end RpaChaos
